import Mathlib

/-!
Shallow embedding of the QA automation tool's test-synthesis engine
(`src/lib/testGenerator.ts`), defect-classification engine and Jira
triage mapper (`src/lib/bugDetector.ts` / `jiraIntegration`), and the
reporting aggregator (`ReportingDashboard`).  Pure TypeScript functions
become Lean functions; the `Date.now()` / `Math.random()` calls used for
generated identifiers and timestamps become explicit generator
parameters; TypeScript string-literal union types become inductives.
-/

/-- JavaScript `a || d` on an optional string: `undefined` and `""` are
falsy, so both fall through to the default. -/
def jsOr (o : Option String) (d : String) : String :=
  match o with
  | some s => if s == "" then d else s
  | none => d

/-- Whether `pat` is a prefix of the character list (first argument is the
haystack, second the pattern). -/
def startsWithL : List Char → List Char → Bool
  | _, [] => true
  | [], _ :: _ => false
  | c :: cs, p :: ps => c == p && startsWithL cs ps

/-- Whether `pat` occurs contiguously in the haystack. -/
def containsSubL (pat : List Char) : List Char → Bool
  | [] => startsWithL [] pat
  | c :: cs => startsWithL (c :: cs) pat || containsSubL pat cs

/-- JavaScript `s.includes(pat)`: contiguous-substring test. -/
def strIncludes (s pat : String) : Bool :=
  containsSubL pat.data s.data

/-- JavaScript `s.toLowerCase()` (ASCII range), mapped characterwise. -/
def toLowerStr (s : String) : String :=
  String.mk (s.data.map Char.toLower)

-- # Data model (`scraper.ts`, `testGenerator.ts`, `bugDetector.ts`)

/-- `ScrapedElement.type`: `'button' | 'input' | 'link' | 'form' | 'select' | 'textarea'`. -/
inductive ElementType where
  | button | input | link | form | select | textarea
deriving DecidableEq, Repr

/-- `TestFramework = 'playwright' | 'selenium' | 'cypress'`. -/
inductive TestFramework where
  | playwright | selenium | cypress
deriving DecidableEq, Repr

/-- `TestCase.priority`: `'high' | 'medium' | 'low'`. -/
inductive TCPriority where
  | high | medium | low
deriving DecidableEq, Repr

/-- `TestCase.category`: `'functional' | 'ui' | 'integration'`. -/
inductive TCCategory where
  | functional | ui | integration
deriving DecidableEq, Repr

/-- The string a `TCPriority` value denotes (TS string-literal union). -/
def priorityStr : TCPriority → String
  | .high => "high"
  | .medium => "medium"
  | .low => "low"

/-- The string a `TCCategory` value denotes (TS string-literal union). -/
def categoryStr : TCCategory → String
  | .functional => "functional"
  | .ui => "ui"
  | .integration => "integration"

/-- `ScrapedElement` from `scraper.ts`; `attributes: Record<string,string>`
is an association list, `position` a pair. -/
structure ScrapedElement where
  id : String
  type : ElementType
  selector : String
  text : Option String
  attributes : List (String × String)
  xpath : String
  position : Int × Int
deriving DecidableEq, Repr

/-- JavaScript property access `element.attributes.k` on a string record:
`undefined` when the key is absent. -/
def attrGet (el : ScrapedElement) (k : String) : Option String :=
  (el.attributes.find? (fun p => p.1 == k)).map (fun p => p.2)

/-- `TestCase` from `testGenerator.ts`. -/
structure TestCase where
  id : String
  name : String
  description : String
  framework : TestFramework
  code : String
  elements : List String
  priority : TCPriority
  category : TCCategory
deriving DecidableEq, Repr

/-- `GenerateTestsConfig` from `testGenerator.ts`. -/
structure GenerateTestsConfig where
  elements : List ScrapedElement
  framework : TestFramework
  baseUrl : String
  includeValidation : Bool
  includeNegativeTests : Bool
deriving Repr

/-- `BugSeverity = 'critical' | 'major' | 'minor' | 'trivial'`. -/
inductive BugSeverity where
  | critical | major | minor | trivial
deriving DecidableEq, Repr

/-- `BugStatus = 'open' | 'in-progress' | 'resolved' | 'closed'`. -/
inductive BugStatus where
  | open | inProgress | resolved | closed
deriving DecidableEq, Repr

/-- `BugCategory = 'functional' | 'ui' | 'performance' | 'security' | 'usability'`. -/
inductive BugCategory where
  | functional | ui | performance | security | usability
deriving DecidableEq, Repr

/-- `TestExecution.status`: `'passed' | 'failed' | 'skipped'`. -/
inductive ExecStatus where
  | passed | failed | skipped
deriving DecidableEq, Repr

/-- `Bug` record from `bugDetector.ts`; `Date` values are millisecond
timestamps (`Nat`). -/
structure Bug where
  id : String
  title : String
  description : String
  severity : BugSeverity
  status : BugStatus
  category : BugCategory
  url : String
  element : Option String
  screenshot : Option String
  steps : List String
  expectedResult : String
  actualResult : String
  testCaseId : Option String
  jiraTicket : Option String
  createdAt : Nat
  updatedAt : Nat
  assignee : Option String
  reporter : String
deriving DecidableEq, Repr

/-- `TestExecution` record from `bugDetector.ts`. -/
structure TestExecution where
  id : String
  testCaseId : String
  status : ExecStatus
  duration : Nat
  error : Option String
  screenshot : Option String
  timestamp : Nat
deriving DecidableEq, Repr

/-- `BugDetectionConfig.thresholds` from `bugDetector.ts`. -/
structure Thresholds where
  loadTime : ℚ
  visualDifference : ℚ
  accessibilityScore : ℚ
deriving DecidableEq, Repr

/-- `BugDetectionConfig` from `bugDetector.ts`. -/
structure BugDetectionConfig where
  enableVisualTesting : Bool
  enablePerformanceTesting : Bool
  enableAccessibilityTesting : Bool
  thresholds : Thresholds
deriving DecidableEq, Repr

-- # Defect classification (`bugDetector.ts`)

/-- `determineBugSeverity(error, testPriority)` (`bugDetector.ts`
lines 150–158); both parameters are declared `string` in the source. -/
def determineBugSeverity (error : String) (testPriority : String) : BugSeverity :=
  if strIncludes (toLowerStr error) "timeout" || strIncludes (toLowerStr error) "not found" then
    .critical
  else if strIncludes (toLowerStr error) "assertion" || strIncludes (toLowerStr error) "expected" then
    (if testPriority == "high" then .major else .minor)
  else
    .minor

/-- `mapTestCategoryToBugCategory(testCategory)` (`bugDetector.ts`
lines 160–171), a `switch` on the category string with default
`functional`. -/
def mapTestCategoryToBugCategory (testCategory : String) : BugCategory :=
  if testCategory == "functional" then .functional
  else if testCategory == "ui" then .ui
  else if testCategory == "integration" then .functional
  else .functional

/-- One draw of the generated-data oracle: the random/timestamp values a
single bug creation consumes (`bug-${Date.now()}-${random}` id and the two
`new Date()` calls). -/
structure BugGen where
  id : String
  created : Nat
  updated : Nat
deriving DecidableEq, Repr

/-- `createBugFromFailedTest(execution, testCase, config)` (`bugDetector.ts`
lines 119–148), with the generated id and the two `new Date()` results
passed in explicitly as `g`. -/
def createBugFromFailedTest (g : BugGen) (execution : TestExecution)
    (testCase : TestCase) (_config : BugDetectionConfig) : Bug :=
  let severity := determineBugSeverity (jsOr execution.error "") (priorityStr testCase.priority)
  { id := g.id
    title := "Test Failure: " ++ testCase.name
    description := "Automated test \"" ++ testCase.name ++ "\" failed during execution."
    severity := severity
    status := .open
    category := mapTestCategoryToBugCategory (categoryStr testCase.category)
    url := "https://example.com"
    element := testCase.elements.head?
    screenshot := execution.screenshot
    steps := ["Navigate to the test page",
              "Execute the automated test case",
              "Observe the failure"]
    expectedResult := "Test should pass without errors"
    actualResult := jsOr execution.error "Test failed with unknown error"
    testCaseId := some testCase.id
    jiraTicket := none
    createdAt := g.created
    updatedAt := g.updated
    assignee := none
    reporter := "QA Automation Tool" }

/-- The two `new Date()` draws a mock-bug generator consumes. -/
structure Dates where
  created : Nat
  updated : Nat
deriving DecidableEq, Repr

/-- `generateMockVisualBugs()` (`bugDetector.ts` lines 190–214); every field
is a literal except the two `new Date()` draws. -/
def generateMockVisualBugs (d : Dates) : List Bug :=
  [{ id := "visual-bug-1"
     title := "Button alignment issue on mobile"
     description := "Login button is misaligned on mobile devices"
     severity := .minor
     status := .open
     category := .ui
     url := "https://example.com/login"
     element := some "#login-btn"
     screenshot := some "https://via.placeholder.com/400x800/ffff00/000000?text=Mobile+Layout+Issue"
     steps := ["Open the login page on mobile device",
               "Observe the button alignment",
               "Compare with desktop version"]
     expectedResult := "Button should be centered and properly aligned"
     actualResult := "Button appears off-center and overlaps with other elements"
     testCaseId := none
     jiraTicket := none
     createdAt := d.created
     updatedAt := d.updated
     assignee := none
     reporter := "Visual Testing Tool" }]

/-- `generateMockPerformanceBugs()` (`bugDetector.ts` lines 216–238). -/
def generateMockPerformanceBugs (d : Dates) : List Bug :=
  [{ id := "perf-bug-1"
     title := "Slow page load time"
     description := "Homepage takes more than 5 seconds to load"
     severity := .major
     status := .open
     category := .performance
     url := "https://example.com"
     element := none
     screenshot := none
     steps := ["Navigate to homepage",
               "Measure load time",
               "Compare with performance threshold"]
     expectedResult := "Page should load within 3 seconds"
     actualResult := "Page loads in 6.2 seconds"
     testCaseId := none
     jiraTicket := none
     createdAt := d.created
     updatedAt := d.updated
     assignee := none
     reporter := "Performance Testing Tool" }]

/-- `generateMockAccessibilityBugs()` (`bugDetector.ts` lines 240–263). -/
def generateMockAccessibilityBugs (d : Dates) : List Bug :=
  [{ id := "a11y-bug-1"
     title := "Missing alt text for images"
     description := "Product images are missing alternative text for screen readers"
     severity := .major
     status := .open
     category := .usability
     url := "https://example.com/products"
     element := some "img.product-image"
     screenshot := none
     steps := ["Navigate to products page",
               "Run accessibility audit",
               "Check image alt attributes"]
     expectedResult := "All images should have descriptive alt text"
     actualResult := "15 images are missing alt attributes"
     testCaseId := none
     jiraTicket := none
     createdAt := d.created
     updatedAt := d.updated
     assignee := none
     reporter := "Accessibility Testing Tool" }]

/-- `detectBugs(executions, testCases, config)` (`bugDetector.ts`
lines 86–117).  Failed executions whose `testCaseId` resolves to a test
case yield a bug each (a missing test case is skipped via `continue`);
mock visual / performance / accessibility bugs are appended when the
corresponding flag is set.  `env k` supplies the id/timestamps of the
`k`-th failure bug; `vd`, `pd`, `ad` supply the mock generators' dates. -/
def detectBugs (env : Nat → BugGen) (vd pd ad : Dates)
    (executions : List TestExecution) (testCases : List TestCase)
    (config : BugDetectionConfig) : List Bug :=
  let failedExecutions := executions.filter (fun e => e.status == ExecStatus.failed)
  let pairs := failedExecutions.filterMap (fun e =>
    (testCases.find? (fun tc => tc.id == e.testCaseId)).map (fun tc => (e, tc)))
  let failureBugs := pairs.enum.map (fun p => createBugFromFailedTest (env p.1) p.2.1 p.2.2 config)
  failureBugs
    ++ (if config.enableVisualTesting then generateMockVisualBugs vd else [])
    ++ (if config.enablePerformanceTesting then generateMockPerformanceBugs pd else [])
    ++ (if config.enableAccessibilityTesting then generateMockAccessibilityBugs ad else [])

-- # Test synthesis (`testGenerator.ts`)

/-- The expected post-click URL in `generateLinkTest`'s templates: the
source expression `href.startsWith('/') ? baseUrl + href : href` (the
prefix test is on the character list, structurally). -/
def linkExpectedUrl (href baseUrl : String) : String :=
  if startsWithL href.data ['/'] then baseUrl ++ href else href

/-- The URL-assertion fragment of each link-navigation template, factored
out of the (otherwise verbatim) template text so that theorems can speak
about the asserted URL. -/
def linkAssertion (framework : TestFramework) (url : String) : String :=
  match framework with
  | .playwright => "await expect(page).toHaveURL(\x27" ++ url ++ "\x27);"
  | .selenium => "expected_url = \x27" ++ url ++ "\x27\n        assert driver.current_url == expected_url"
  | .cypress => "cy.url().should(\x27eq\x27, \x27" ++ url ++ "\x27);"

/-- Source template literal from `testGenerator.ts` (verbatim; braces and
quotes escaped). -/
def playwrightButtonCode (element : ScrapedElement) (baseUrl : String) : String :=
  "\nimport \x7b test, expect \x7d from \x27@playwright/test\x27;\n\ntest(\x27Button click test - "
    ++ (jsOr element.text "Button")
    ++ "\x27, async (\x7b page \x7d) => \x7b\n  await page.goto(\x27"
    ++ (baseUrl)
    ++ "\x27);\n  await page.click(\x27"
    ++ (element.selector)
    ++ "\x27);\n  // Add assertions here\n  await expect(page).toHaveURL(/.*success.*/);\n\x7d);"

/-- Source template literal from `testGenerator.ts` (verbatim; braces and
quotes escaped). -/
def seleniumButtonCode (element : ScrapedElement) (baseUrl : String) : String :=
  "\nfrom selenium import webdriver\nfrom selenium.webdriver.common.by import By\nfrom selenium.webdriver.support.ui import WebDriverWait\nfrom selenium.webdriver.support import expected_conditions as EC\n\ndef test_button_click():\n    driver = webdriver.Chrome()\n    try:\n        driver.get(\x27"
    ++ (baseUrl)
    ++ "\x27)\n        button = WebDriverWait(driver, 10).until(\n            EC.element_to_be_clickable((By.CSS_SELECTOR, \x27"
    ++ (element.selector)
    ++ "\x27))\n        )\n        button.click()\n        # Add assertions here\n        assert \x27success\x27 in driver.current_url\n    finally:\n        driver.quit()"

/-- Source template literal from `testGenerator.ts` (verbatim; braces and
quotes escaped). -/
def cypressButtonCode (element : ScrapedElement) (baseUrl : String) : String :=
  "\ndescribe(\x27Button Tests\x27, () => \x7b\n  it(\x27should click "
    ++ (jsOr element.text "button")
    ++ " successfully\x27, () => \x7b\n    cy.visit(\x27"
    ++ (baseUrl)
    ++ "\x27);\n    cy.get(\x27"
    ++ (element.selector)
    ++ "\x27).click();\n    // Add assertions here\n    cy.url().should(\x27include\x27, \x27success\x27);\n  \x7d);\n\x7d);"

/-- Source template literal from `testGenerator.ts` (verbatim; braces and
quotes escaped). -/
def playwrightInputCode (element : ScrapedElement) (baseUrl : String) : String :=
  "\nimport \x7b test, expect \x7d from \x27@playwright/test\x27;\n\ntest(\x27Input field test - "
    ++ (jsOr (attrGet element "name") "Input")
    ++ "\x27, async (\x7b page \x7d) => \x7b\n  await page.goto(\x27"
    ++ (baseUrl)
    ++ "\x27);\n  await page.fill(\x27"
    ++ (element.selector)
    ++ "\x27, \x27test-value\x27);\n  const value = await page.inputValue(\x27"
    ++ (element.selector)
    ++ "\x27);\n  expect(value).toBe(\x27test-value\x27);\n\x7d);"

/-- Source template literal from `testGenerator.ts` (verbatim; braces and
quotes escaped). -/
def seleniumInputCode (element : ScrapedElement) (baseUrl : String) : String :=
  "\nfrom selenium import webdriver\nfrom selenium.webdriver.common.by import By\n\ndef test_input_field():\n    driver = webdriver.Chrome()\n    try:\n        driver.get(\x27"
    ++ (baseUrl)
    ++ "\x27)\n        input_field = driver.find_element(By.CSS_SELECTOR, \x27"
    ++ (element.selector)
    ++ "\x27)\n        input_field.send_keys(\x27test-value\x27)\n        assert input_field.get_attribute(\x27value\x27) == \x27test-value\x27\n    finally:\n        driver.quit()"

/-- Source template literal from `testGenerator.ts` (verbatim; braces and
quotes escaped). -/
def cypressInputCode (element : ScrapedElement) (baseUrl : String) : String :=
  "\ndescribe(\x27Input Tests\x27, () => \x7b\n  it(\x27should fill "
    ++ (jsOr (attrGet element "name") "input")
    ++ " field\x27, () => \x7b\n    cy.visit(\x27"
    ++ (baseUrl)
    ++ "\x27);\n    cy.get(\x27"
    ++ (element.selector)
    ++ "\x27).type(\x27test-value\x27);\n    cy.get(\x27"
    ++ (element.selector)
    ++ "\x27).should(\x27have.value\x27, \x27test-value\x27);\n  \x7d);\n\x7d);"

/-- Source template literal from `testGenerator.ts` (verbatim; braces and
quotes escaped). -/
def playwrightNegativeInputCode (element : ScrapedElement) (baseUrl : String) : String :=
  "\nimport \x7b test, expect \x7d from \x27@playwright/test\x27;\n\ntest(\x27Negative input test - "
    ++ (jsOr (attrGet element "name") "Input")
    ++ "\x27, async (\x7b page \x7d) => \x7b\n  await page.goto(\x27"
    ++ (baseUrl)
    ++ "\x27);\n  await page.fill(\x27"
    ++ (element.selector)
    ++ "\x27, \x27\x27);\n  // Try to submit form or trigger validation\n  await page.click(\x27button[type=\"submit\"]\x27);\n  // Check for validation message\n  const errorMessage = page.locator(\x27.error, .invalid-feedback\x27);\n  await expect(errorMessage).toBeVisible();\n\x7d);"

/-- Source template literal from `testGenerator.ts` (verbatim; braces and
quotes escaped). -/
def seleniumNegativeInputCode (element : ScrapedElement) (baseUrl : String) : String :=
  "\nfrom selenium import webdriver\nfrom selenium.webdriver.common.by import By\n\ndef test_negative_input():\n    driver = webdriver.Chrome()\n    try:\n        driver.get(\x27"
    ++ (baseUrl)
    ++ "\x27)\n        input_field = driver.find_element(By.CSS_SELECTOR, \x27"
    ++ (element.selector)
    ++ "\x27)\n        input_field.clear()\n        submit_btn = driver.find_element(By.CSS_SELECTOR, \x27button[type=\"submit\"]\x27)\n        submit_btn.click()\n        error_msg = driver.find_element(By.CSS_SELECTOR, \x27.error, .invalid-feedback\x27)\n        assert error_msg.is_displayed()\n    finally:\n        driver.quit()"

/-- Source template literal from `testGenerator.ts` (verbatim; braces and
quotes escaped). -/
def cypressNegativeInputCode (element : ScrapedElement) (baseUrl : String) : String :=
  "\ndescribe(\x27Negative Input Tests\x27, () => \x7b\n  it(\x27should show validation error for empty "
    ++ (jsOr (attrGet element "name") "input")
    ++ "\x27, () => \x7b\n    cy.visit(\x27"
    ++ (baseUrl)
    ++ "\x27);\n    cy.get(\x27"
    ++ (element.selector)
    ++ "\x27).clear();\n    cy.get(\x27button[type=\"submit\"]\x27).click();\n    cy.get(\x27.error, .invalid-feedback\x27).should(\x27be.visible\x27);\n  \x7d);\n\x7d);"

/-- Source template literal from `testGenerator.ts` (verbatim; braces and
quotes escaped). -/
def playwrightLinkCode (element : ScrapedElement) (href baseUrl : String) : String :=
  "\nimport \x7b test, expect \x7d from \x27@playwright/test\x27;\n\ntest(\x27Link navigation test - "
    ++ (jsOr element.text "Link")
    ++ "\x27, async (\x7b page \x7d) => \x7b\n  await page.goto(\x27"
    ++ (baseUrl)
    ++ "\x27);\n  await page.click(\x27"
    ++ (element.selector)
    ++ "\x27);\n  "
    ++ linkAssertion .playwright (linkExpectedUrl href baseUrl)
    ++ "\n\x7d);"

/-- Source template literal from `testGenerator.ts` (verbatim; braces and
quotes escaped). -/
def seleniumLinkCode (element : ScrapedElement) (href baseUrl : String) : String :=
  "\nfrom selenium import webdriver\nfrom selenium.webdriver.common.by import By\n\ndef test_link_navigation():\n    driver = webdriver.Chrome()\n    try:\n        driver.get(\x27"
    ++ (baseUrl)
    ++ "\x27)\n        link = driver.find_element(By.CSS_SELECTOR, \x27"
    ++ (element.selector)
    ++ "\x27)\n        link.click()\n        "
    ++ linkAssertion .selenium (linkExpectedUrl href baseUrl)
    ++ "\n    finally:\n        driver.quit()"

/-- Source template literal from `testGenerator.ts` (verbatim; braces and
quotes escaped). -/
def cypressLinkCode (element : ScrapedElement) (href baseUrl : String) : String :=
  "\ndescribe(\x27Link Tests\x27, () => \x7b\n  it(\x27should navigate to "
    ++ (jsOr element.text "link")
    ++ " destination\x27, () => \x7b\n    cy.visit(\x27"
    ++ (baseUrl)
    ++ "\x27);\n    cy.get(\x27"
    ++ (element.selector)
    ++ "\x27).click();\n    "
    ++ linkAssertion .cypress (linkExpectedUrl href baseUrl)
    ++ "\n  \x7d);\n\x7d);"

/-- Source template literal from `testGenerator.ts` (verbatim; braces and
quotes escaped). -/
def playwrightFormCode (element : ScrapedElement) (baseUrl : String) : String :=
  "\nimport \x7b test, expect \x7d from \x27@playwright/test\x27;\n\ntest(\x27Form submission test\x27, async (\x7b page \x7d) => \x7b\n  await page.goto(\x27"
    ++ (baseUrl)
    ++ "\x27);\n  \n  // Fill form fields\n  await page.fill(\x27input[type=\"email\"]\x27, \x27test@example.com\x27);\n  await page.fill(\x27input[type=\"password\"]\x27, \x27password123\x27);\n  \n  // Submit form\n  await page.click(\x27"
    ++ (element.selector)
    ++ " button[type=\"submit\"]\x27);\n  \n  // Add assertions for successful submission\n  await expect(page.locator(\x27.success-message\x27)).toBeVisible();\n\x7d);"

/-- Source template literal from `testGenerator.ts` (verbatim; braces and
quotes escaped). -/
def seleniumFormCode (element : ScrapedElement) (baseUrl : String) : String :=
  "\nfrom selenium import webdriver\nfrom selenium.webdriver.common.by import By\n\ndef test_form_submission():\n    driver = webdriver.Chrome()\n    try:\n        driver.get(\x27"
    ++ (baseUrl)
    ++ "\x27)\n        \n        # Fill form fields\n        email_field = driver.find_element(By.CSS_SELECTOR, \x27input[type=\"email\"]\x27)\n        email_field.send_keys(\x27test@example.com\x27)\n        \n        password_field = driver.find_element(By.CSS_SELECTOR, \x27input[type=\"password\"]\x27)\n        password_field.send_keys(\x27password123\x27)\n        \n        # Submit form\n        submit_btn = driver.find_element(By.CSS_SELECTOR, \x27"
    ++ (element.selector)
    ++ " button[type=\"submit\"]\x27)\n        submit_btn.click()\n        \n        # Check for success message\n        success_msg = driver.find_element(By.CSS_SELECTOR, \x27.success-message\x27)\n        assert success_msg.is_displayed()\n    finally:\n        driver.quit()"

/-- Source template literal from `testGenerator.ts` (verbatim; braces and
quotes escaped). -/
def cypressFormCode (element : ScrapedElement) (baseUrl : String) : String :=
  "\ndescribe(\x27Form Tests\x27, () => \x7b\n  it(\x27should submit form successfully\x27, () => \x7b\n    cy.visit(\x27"
    ++ (baseUrl)
    ++ "\x27);\n    \n    // Fill form fields\n    cy.get(\x27input[type=\"email\"]\x27).type(\x27test@example.com\x27);\n    cy.get(\x27input[type=\"password\"]\x27).type(\x27password123\x27);\n    \n    // Submit form\n    cy.get(\x27"
    ++ (element.selector)
    ++ " button[type=\"submit\"]\x27).click();\n    \n    // Check for success\n    cy.get(\x27.success-message\x27).should(\x27be.visible\x27);\n  \x7d);\n\x7d);"

/-- Source template literal from `testGenerator.ts` (verbatim; braces and
quotes escaped). -/
def playwrightWorkflowCode (baseUrl : String) : String :=
  "\nimport \x7b test, expect \x7d from \x27@playwright/test\x27;\n\ntest(\x27Complete user workflow test\x27, async (\x7b page \x7d) => \x7b\n  await page.goto(\x27"
    ++ (baseUrl)
    ++ "\x27);\n  \n  // Step 1: Fill login form\n  await page.fill(\x27input[name=\"email\"]\x27, \x27user@example.com\x27);\n  await page.fill(\x27input[name=\"password\"]\x27, \x27password123\x27);\n  \n  // Step 2: Submit form\n  await page.click(\x27#login-btn\x27);\n  \n  // Step 3: Verify successful login\n  await expect(page).toHaveURL(/.*dashboard.*/);\n  \n  // Step 4: Navigate to profile\n  await page.click(\x27a[href=\"/profile\"]\x27);\n  \n  // Step 5: Verify profile page\n  await expect(page.locator(\x27h1\x27)).toContainText(\x27Profile\x27);\n\x7d);"

/-- Source template literal from `testGenerator.ts` (verbatim; braces and
quotes escaped). -/
def seleniumWorkflowCode (baseUrl : String) : String :=
  "\nfrom selenium import webdriver\nfrom selenium.webdriver.common.by import By\nfrom selenium.webdriver.support.ui import WebDriverWait\nfrom selenium.webdriver.support import expected_conditions as EC\n\ndef test_complete_workflow():\n    driver = webdriver.Chrome()\n    try:\n        driver.get(\x27"
    ++ (baseUrl)
    ++ "\x27)\n        \n        # Step 1: Fill login form\n        email_field = driver.find_element(By.NAME, \x27email\x27)\n        email_field.send_keys(\x27user@example.com\x27)\n        \n        password_field = driver.find_element(By.NAME, \x27password\x27)\n        password_field.send_keys(\x27password123\x27)\n        \n        # Step 2: Submit form\n        login_btn = driver.find_element(By.ID, \x27login-btn\x27)\n        login_btn.click()\n        \n        # Step 3: Wait for dashboard\n        WebDriverWait(driver, 10).until(\n            EC.url_contains(\x27dashboard\x27)\n        )\n        \n        # Step 4: Navigate to profile\n        profile_link = driver.find_element(By.CSS_SELECTOR, \x27a[href=\"/profile\"]\x27)\n        profile_link.click()\n        \n        # Step 5: Verify profile page\n        h1 = WebDriverWait(driver, 10).until(\n            EC.presence_of_element_located((By.TAG_NAME, \x27h1\x27))\n        )\n        assert \x27Profile\x27 in h1.text\n    finally:\n        driver.quit()"

/-- Source template literal from `testGenerator.ts` (verbatim; braces and
quotes escaped). -/
def cypressWorkflowCode (baseUrl : String) : String :=
  "\ndescribe(\x27Complete Workflow Tests\x27, () => \x7b\n  it(\x27should complete full user journey\x27, () => \x7b\n    cy.visit(\x27"
    ++ (baseUrl)
    ++ "\x27);\n    \n    // Step 1: Fill login form\n    cy.get(\x27input[name=\"email\"]\x27).type(\x27user@example.com\x27);\n    cy.get(\x27input[name=\"password\"]\x27).type(\x27password123\x27);\n    \n    // Step 2: Submit form\n    cy.get(\x27#login-btn\x27).click();\n    \n    // Step 3: Verify dashboard\n    cy.url().should(\x27include\x27, \x27dashboard\x27);\n    \n    // Step 4: Navigate to profile\n    cy.get(\x27a[href=\"/profile\"]\x27).click();\n    \n    // Step 5: Verify profile page\n    cy.get(\x27h1\x27).should(\x27contain\x27, \x27Profile\x27);\n  \x7d);\n\x7d);"

/-- `generateButtonTest` (`testGenerator.ts` lines 57–115): one functional,
high-priority click test covering exactly the given element. -/
def generateButtonTest (element : ScrapedElement) (framework : TestFramework)
    (baseUrl : String) (index : Nat) : TestCase :=
  { id := "btn-test-" ++ toString index
    name := "Button Click Test - " ++ jsOr element.text "Button"
    description := "Test clicking the " ++ jsOr element.text "button" ++ " element"
    framework := framework
    code := match framework with
      | .playwright => playwrightButtonCode element baseUrl
      | .selenium => seleniumButtonCode element baseUrl
      | .cypress => cypressButtonCode element baseUrl
    elements := [element.id]
    priority := .high
    category := .functional }

/-- `generateInputTest` (`testGenerator.ts` lines 117–170).  The source's
`inputType` local is computed but never used and is omitted. -/
def generateInputTest (element : ScrapedElement) (framework : TestFramework)
    (baseUrl : String) (index : Nat) : TestCase :=
  { id := "input-test-" ++ toString index
    name := "Input Field Test - " ++ jsOr (attrGet element "name") "Input"
    description := "Test filling the " ++ jsOr (attrGet element "name") "input" ++ " field"
    framework := framework
    code := match framework with
      | .playwright => playwrightInputCode element baseUrl
      | .selenium => seleniumInputCode element baseUrl
      | .cypress => cypressInputCode element baseUrl
    elements := [element.id]
    priority := .medium
    category := .functional }

/-- `generateNegativeInputTest` (`testGenerator.ts` lines 172–231). -/
def generateNegativeInputTest (element : ScrapedElement) (framework : TestFramework)
    (baseUrl : String) (index : Nat) : TestCase :=
  { id := "negative-input-test-" ++ toString index
    name := "Negative Input Test - " ++ jsOr (attrGet element "name") "Input"
    description := "Test validation for empty " ++ jsOr (attrGet element "name") "input" ++ " field"
    framework := framework
    code := match framework with
      | .playwright => playwrightNegativeInputCode element baseUrl
      | .selenium => seleniumNegativeInputCode element baseUrl
      | .cypress => cypressNegativeInputCode element baseUrl
    elements := [element.id]
    priority := .medium
    category := .functional }

/-- `generateLinkTest` (`testGenerator.ts` lines 233–286); the source's
`href` local is `element.attributes.href || '#'`. -/
def generateLinkTest (element : ScrapedElement) (framework : TestFramework)
    (baseUrl : String) (index : Nat) : TestCase :=
  let href := jsOr (attrGet element "href") "#"
  { id := "link-test-" ++ toString index
    name := "Link Navigation Test - " ++ jsOr element.text "Link"
    description := "Test navigation for " ++ jsOr element.text "link" ++ " element"
    framework := framework
    code := match framework with
      | .playwright => playwrightLinkCode element href baseUrl
      | .selenium => seleniumLinkCode element href baseUrl
      | .cypress => cypressLinkCode element href baseUrl
    elements := [element.id]
    priority := .low
    category := .functional }

/-- `generateFormTest` (`testGenerator.ts` lines 288–367). -/
def generateFormTest (element : ScrapedElement) (framework : TestFramework)
    (baseUrl : String) (index : Nat) : TestCase :=
  { id := "form-test-" ++ toString index
    name := "Form Submission Test"
    description := "Test complete form submission workflow"
    framework := framework
    code := match framework with
      | .playwright => playwrightFormCode element baseUrl
      | .selenium => seleniumFormCode element baseUrl
      | .cypress => cypressFormCode element baseUrl
    elements := [element.id]
    priority := .high
    category := .integration }

/-- `generateWorkflowTest` (`testGenerator.ts` lines 369–471): the single
composite workflow test, covering the ids of all the given elements. -/
def generateWorkflowTest (elements : List ScrapedElement) (framework : TestFramework)
    (baseUrl : String) : TestCase :=
  { id := "workflow-test-1"
    name := "Complete User Workflow Test"
    description := "End-to-end test covering login, navigation, and profile access"
    framework := framework
    code := match framework with
      | .playwright => playwrightWorkflowCode baseUrl
      | .selenium => seleniumWorkflowCode baseUrl
      | .cypress => cypressWorkflowCode baseUrl
    elements := elements.map (fun el => el.id)
    priority := .high
    category := .integration }

/-- The body of the per-element `switch` in `generateTestCases`
(`testGenerator.ts` lines 28–46): which tests one element at one index
contributes.  `select` and `textarea` fall through with no tests. -/
def perElementTests (framework : TestFramework) (baseUrl : String)
    (includeNegativeTests : Bool) (element : ScrapedElement) (index : Nat) : List TestCase :=
  match element.type with
  | .button => [generateButtonTest element framework baseUrl index]
  | .input =>
      [generateInputTest element framework baseUrl index]
        ++ (if includeNegativeTests then [generateNegativeInputTest element framework baseUrl index] else [])
  | .link => [generateLinkTest element framework baseUrl index]
  | .form => [generateFormTest element framework baseUrl index]
  | .select => []
  | .textarea => []

/-- The `config.elements.forEach((element, index) => ...)` loop of
`generateTestCases`, accumulating each element's tests in order, with the
running index threaded through. -/
def baseTests (framework : TestFramework) (baseUrl : String)
    (includeNegativeTests : Bool) : List ScrapedElement → Nat → List TestCase
  | [], _ => []
  | el :: rest, index =>
      perElementTests framework baseUrl includeNegativeTests el index
        ++ baseTests framework baseUrl includeNegativeTests rest (index + 1)

/-- `generateTestCases(config)` (`testGenerator.ts` lines 24–55): the
per-element tests in input order, followed by the single workflow test
when at least one `form` element is present. -/
def generateTestCases (config : GenerateTestsConfig) : List TestCase :=
  let base := baseTests config.framework config.baseUrl config.includeNegativeTests config.elements 0
  let formElements := config.elements.filter (fun el => el.type == ElementType.form)
  if formElements.length > 0 then
    base ++ [generateWorkflowTest config.elements config.framework config.baseUrl]
  else
    base

-- # Triage / ticket mapper (`jiraIntegration` module of `bugDetector.ts`)

/-- `JiraConfig` record. -/
structure JiraConfig where
  baseUrl : String
  email : String
  apiToken : String
  projectKey : String
  issueType : String
  autoCreateTickets : Bool
deriving DecidableEq, Repr

/-- `Partial<JiraConfig>`, the argument type of `validateJiraConfig`:
every field may be `undefined`. -/
structure PartialJiraConfig where
  baseUrl : Option String
  email : Option String
  apiToken : Option String
  projectKey : Option String
  issueType : Option String
  autoCreateTickets : Option Bool
deriving DecidableEq, Repr

/-- `JiraTicket` record; `Date` fields are millisecond timestamps. -/
structure JiraTicket where
  id : String
  key : String
  summary : String
  description : String
  priority : String
  status : String
  assignee : Option String
  reporter : String
  created : Nat
  updated : Nat
  url : String
deriving DecidableEq, Repr

/-- `mapBugSeverityToJiraPriority(severity)` (`bugDetector.ts` / jira module
lines 440–453): a `switch` over the four severities.  The source's
`default: return 'Medium'` arm is unreachable because `BugSeverity` is a
closed union of the four literals. -/
def mapBugSeverityToJiraPriority (severity : BugSeverity) : String :=
  match severity with
  | .critical => "Blocker"
  | .major => "High"
  | .minor => "Medium"
  | .trivial => "Low"

/-- The string a `BugCategory` value denotes (TS string-literal union). -/
def bugCategoryStr : BugCategory → String
  | .functional => "functional"
  | .ui => "ui"
  | .performance => "performance"
  | .security => "security"
  | .usability => "usability"

/-- `formatBugDescriptionForJira(bug)` (lines 455–479): the structured
ticket body, trimmed.  `iso` models the external `Date.toISOString`
rendering of the stored millisecond timestamp. -/
def formatBugDescriptionForJira (iso : Nat → String) (bug : Bug) : String :=
  ("\n*Bug Description:*\n" ++ bug.description
    ++ "\n\n*Steps to Reproduce:*\n"
    ++ String.intercalate "\n"
        (bug.steps.enum.map (fun p => toString (p.1 + 1) ++ ". " ++ p.2))
    ++ "\n\n*Expected Result:*\n" ++ bug.expectedResult
    ++ "\n\n*Actual Result:*\n" ++ bug.actualResult
    ++ "\n\n*Additional Information:*\n- URL: " ++ bug.url
    ++ "\n- Element: " ++ jsOr bug.element "N/A"
    ++ "\n- Category: " ++ bugCategoryStr bug.category
    ++ "\n- Test Case ID: " ++ jsOr bug.testCaseId "N/A"
    ++ "\n- Reporter: " ++ bug.reporter
    ++ "\n- Created: " ++ iso bug.createdAt
    ++ "\n\n"
    ++ (match bug.screenshot with
        | some s => "*Screenshot:* " ++ s
        | none => "")
    ++ "\n  ").trim

/-- The random/timestamp draws one `createJiraTicket` call consumes: three
`Math.floor(Math.random() * _)` values (ticket id, key suffix, url suffix)
and the two `new Date()` calls. -/
structure TicketGen where
  n1 : Nat
  n2 : Nat
  n3 : Nat
  created : Nat
  updated : Nat
deriving DecidableEq, Repr

/-- `createJiraTicket(bug, config)` (lines 328–365).  The function performs
no validation of `config`: it unconditionally builds the ticket request and
returns the (mock) created ticket with status `"Open"`.  The source's
intermediate `ticketRequest` only feeds `summary`/`description`/`priority`
through unchanged. -/
def createJiraTicket (gen : TicketGen) (iso : Nat → String) (bug : Bug)
    (config : JiraConfig) : JiraTicket :=
  let priority := mapBugSeverityToJiraPriority bug.severity
  { id := toString gen.n1
    key := config.projectKey ++ "-" ++ toString gen.n2
    summary := bug.title
    description := formatBugDescriptionForJira iso bug
    priority := priority
    status := "Open"
    assignee := none
    reporter := config.email
    created := gen.created
    updated := gen.updated
    url := config.baseUrl ++ "/browse/" ++ config.projectKey ++ "-" ++ toString gen.n3 }

/-- A character admissible in the email regex's `[^\s@]` classes. -/
def emailChar (c : Char) : Bool := !c.isWhitespace && c != '@'

/-- Splitting a character list at every occurrence of `c` (JavaScript
`String.split` semantics: `n` separators give `n+1` pieces). -/
def splitOnChar (c : Char) : List Char → List (List Char)
  | [] => [[]]
  | x :: xs =>
      if x == c then [] :: splitOnChar c xs
      else
        match splitOnChar c xs with
        | [] => [[x]]
        | h :: t => (x :: h) :: t

/-- `isValidEmail(email)` (lines 535–538): the anchored regex
`^[^\s@]+@[^\s@]+\.[^\s@]+$`.  A string matches iff it splits at a single
`@` into a nonempty whitespace-free local part and a whitespace-free
domain with a `.` somewhere strictly inside (the classes admit `.`
themselves, so only an interior dot is forced). -/
def isValidEmail (s : String) : Bool :=
  match splitOnChar '@' s.data with
  | [lpart, dpart] =>
      !lpart.isEmpty && lpart.all emailChar && dpart.all emailChar
        && ((dpart.drop 1).dropLast.contains '.')
  | _ => false

/-- JavaScript falsiness of an optional string field (`!config.x`):
`undefined` and `""` are falsy. -/
def jsFalsyStr (o : Option String) : Bool :=
  match o with
  | none => true
  | some s => s == ""

/-- `validateJiraConfig(config)` (lines 496–524).  `urlOk` models the
external `new URL(url)` parser used by `isValidUrl` (lines 526–533), which
is a host builtin absent from the repository; every other check is from
the source.  All five fields are checked unconditionally and the error
messages accumulate. -/
def validateJiraConfig (urlOk : String → Bool) (config : PartialJiraConfig) : List String :=
  (if jsFalsyStr config.baseUrl then ["Base URL is required"]
   else if !urlOk (config.baseUrl.getD "") then ["Base URL must be a valid URL"]
   else [])
  ++ (if jsFalsyStr config.email then ["Email is required"]
      else if !isValidEmail (config.email.getD "") then ["Email must be a valid email address"]
      else [])
  ++ (if jsFalsyStr config.apiToken then ["API Token is required"] else [])
  ++ (if jsFalsyStr config.projectKey then ["Project Key is required"] else [])
  ++ (if jsFalsyStr config.issueType then ["Issue Type is required"] else [])

-- # Reporting aggregator (`ReportingDashboard`)

/-- The pass-rate estimate of `ReportingDashboard` (unnamed component
file, lines 125–159): `totalTests > 0 ? Math.max(0, 100 - (totalBugs /
totalTests) * 100) : 0`, over exact rationals. -/
def passRateEstimate (totalBugs totalTests : Nat) : ℚ :=
  if totalTests > 0 then max 0 (100 - ((totalBugs : ℚ) / (totalTests : ℚ)) * 100) else 0

/-- The dashboard's `passRate`, computed from the bug and test-case lists
it receives (`totalTests = testCases.length`, `totalBugs = bugs.length`). -/
def dashboardPassRate (bugs : List Bug) (testCases : List TestCase) : ℚ :=
  passRateEstimate bugs.length testCases.length

-- # Spec-side definitions and concrete sample inputs

/-- Modelled from the spec's words (§4.2 step 1), for comparison with the
source's `determineBugSeverity`: error text containing "timeout" or
"not found" (case-insensitive) gives `critical`; otherwise "assertion" or
"expected" gives `major` for a high-priority specification and `minor`
otherwise; anything else gives `minor`. -/
def severityFromErrorSpec (error : String) (priority : TCPriority) : BugSeverity :=
  if strIncludes (toLowerStr error) "timeout" || strIncludes (toLowerStr error) "not found" then
    .critical
  else if strIncludes (toLowerStr error) "assertion" || strIncludes (toLowerStr error) "expected" then
    (if priority = TCPriority.high then .major else .minor)
  else
    .minor

/-- All `Bug` fields except the generated identifier and the two
generated timestamps. -/
def EqExceptGenerated (b1 b2 : Bug) : Prop :=
  b1.title = b2.title ∧ b1.description = b2.description ∧ b1.severity = b2.severity
    ∧ b1.status = b2.status ∧ b1.category = b2.category ∧ b1.url = b2.url
    ∧ b1.element = b2.element ∧ b1.screenshot = b2.screenshot ∧ b1.steps = b2.steps
    ∧ b1.expectedResult = b2.expectedResult ∧ b1.actualResult = b2.actualResult
    ∧ b1.testCaseId = b2.testCaseId ∧ b1.jiraTicket = b2.jiraTicket
    ∧ b1.assignee = b2.assignee ∧ b1.reporter = b2.reporter

/-- Equality in all `Bug` fields except the generated identifier — the
relation the idempotency claim asserts (timestamps included). -/
def EqExceptId (b1 b2 : Bug) : Prop :=
  EqExceptGenerated b1 b2 ∧ b1.createdAt = b2.createdAt ∧ b1.updatedAt = b2.updatedAt

/-- Sample `form` element (shape of the mock scraper's output). -/
def elForm : ScrapedElement :=
  { id := "4", type := .form, selector := "#login-form", text := none,
    attributes := [("id", "login-form")], xpath := "//*[@id=\"login-form\"]",
    position := (100, 140) }

/-- Sample `link` element whose `href` is relative but does not start
with `/`. -/
def elLink : ScrapedElement :=
  { id := "3", type := .link, selector := "#nav-link", text := some "Go",
    attributes := [("href", "page.html")], xpath := "//*[@id=\"nav-link\"]",
    position := (100, 100) }

/-- Sample synthesis config holding a single `form` element. -/
def cfgFormOnly : GenerateTestsConfig :=
  { elements := [elForm], framework := .playwright, baseUrl := "https://example.com",
    includeValidation := true, includeNegativeTests := true }

/-- Sample synthesis config with no `form` element. -/
def cfgLinkOnly : GenerateTestsConfig :=
  { elements := [elLink], framework := .playwright, baseUrl := "https://example.com",
    includeValidation := true, includeNegativeTests := true }

/-- Sample test case (the resolved specification of `exec0`). -/
def tc0 : TestCase :=
  { id := "tc-1", name := "T", description := "d", framework := .playwright,
    code := "", elements := ["e1"], priority := .high, category := .functional }

/-- Sample failed execution whose error mentions a timeout. -/
def exec0 : TestExecution :=
  { id := "x1", testCaseId := "tc-1", status := .failed, duration := 5,
    error := some "Timeout waiting for element", screenshot := none, timestamp := 0 }

/-- Classification config with every probe disabled. -/
def cfg0 : BugDetectionConfig :=
  { enableVisualTesting := false, enablePerformanceTesting := false,
    enableAccessibilityTesting := false, thresholds := ⟨3000, 1/10, 90⟩ }

/-- Oracle for a first classification run (ids/timestamps drawn at time 0). -/
def env1 : Nat → BugGen := fun _ => ⟨"bug-a", 0, 0⟩

/-- Oracle for a second classification run over the same inputs, performed
later (ids/timestamps drawn at time 5). -/
def env2 : Nat → BugGen := fun _ => ⟨"bug-b", 5, 5⟩

/-- Mock-generator dates for the sample runs. -/
def d0 : Dates := ⟨0, 0⟩

/-- Sample defect handed to the ticket mapper. -/
def sampleBug : Bug :=
  { id := "bug-1", title := "Test Failure: T", description := "d", severity := .critical,
    status := .open, category := .functional, url := "https://example.com", element := none,
    screenshot := none, steps := ["s1"], expectedResult := "e", actualResult := "a",
    testCaseId := some "tc-1", jiraTicket := none, createdAt := 0, updatedAt := 0,
    assignee := none, reporter := "QA Automation Tool" }

/-- Tracker configuration with empty `baseUrl` and empty `apiToken` and the
other three fields valid. -/
def badJiraConfig : JiraConfig :=
  { baseUrl := "", email := "qa@example.com", apiToken := "", projectKey := "QA",
    issueType := "Bug", autoCreateTickets := false }

/-- `badJiraConfig` as the `Partial<JiraConfig>` handed to validation. -/
def badPartialJiraConfig : PartialJiraConfig :=
  { baseUrl := some "", email := some "qa@example.com", apiToken := some "",
    projectKey := some "QA", issueType := some "Bug", autoCreateTickets := some false }

/-- The fully-undefined `Partial<JiraConfig>`. -/
def emptyPartialJiraConfig : PartialJiraConfig :=
  { baseUrl := none, email := none, apiToken := none, projectKey := none,
    issueType := none, autoCreateTickets := none }

-- # Helper lemmas

/-- `determineBugSeverity` applied to the string a `TCPriority` denotes
agrees with the spec-worded severity rule. -/
theorem determineBugSeverity_speceq (error : String) (p : TCPriority) :
    determineBugSeverity error (priorityStr p) = severityFromErrorSpec error p := by
  cases p <;> simp [determineBugSeverity, severityFromErrorSpec, priorityStr]

-- # Claim theorems

/-- C1: for every failed execution result, the severity of the defect the
classifier creates is determined from the result's error text (absent
error read as `""`) and the resolved specification's priority exactly by
the spec's rule (`severityFromErrorSpec`); in particular
"Timeout waiting for element" against a high-priority specification is
`critical`, and "Assertion failed: expected X" against a medium-priority
specification is `minor`. -/
theorem severity_determined_by_error_and_priority :
    (∀ (g : BugGen) (execution : TestExecution) (testCase : TestCase)
        (config : BugDetectionConfig),
      (createBugFromFailedTest g execution testCase config).severity
        = severityFromErrorSpec (jsOr execution.error "") testCase.priority)
    ∧ determineBugSeverity "Timeout waiting for element" "high" = .critical
    ∧ determineBugSeverity "Assertion failed: expected X" "medium" = .minor := by
  refine ⟨?_, by decide, by decide⟩
  intro g execution testCase config
  show determineBugSeverity (jsOr execution.error "") (priorityStr testCase.priority) = _
  exact determineBugSeverity_speceq _ _

/-- C7: the severity-to-tracker-priority mapping is total on the four
severities — which exhaust the severity type, so the `switch` has no
reachable default — and maps critical to Blocker, major to High, minor to
Medium, trivial to Low. -/
theorem mapPriority_total_and_exact :
    mapBugSeverityToJiraPriority .critical = "Blocker"
    ∧ mapBugSeverityToJiraPriority .major = "High"
    ∧ mapBugSeverityToJiraPriority .minor = "Medium"
    ∧ mapBugSeverityToJiraPriority .trivial = "Low"
    ∧ ∀ s : BugSeverity,
        s = .critical ∨ s = .major ∨ s = .minor ∨ s = .trivial := by
  refine ⟨rfl, rfl, rfl, rfl, ?_⟩
  intro s
  cases s
  · exact Or.inl rfl
  · exact Or.inr (Or.inl rfl)
  · exact Or.inr (Or.inr (Or.inl rfl))
  · exact Or.inr (Or.inr (Or.inr rfl))

/-- C8: the dashboard's pass-rate estimate is
`max(0, 100 − (totalDefects/totalSpecifications)·100)` when there is at
least one specification and `0` otherwise; with 10 specifications and 3
defects it is 70. -/
theorem passRateEstimate_formula (totalBugs totalTests : Nat) :
    (0 < totalTests →
      passRateEstimate totalBugs totalTests
        = max 0 (100 - ((totalBugs : ℚ) / (totalTests : ℚ)) * 100))
    ∧ passRateEstimate totalBugs 0 = 0
    ∧ passRateEstimate 3 10 = 70 := by
  refine ⟨fun h => ?_, ?_, ?_⟩
  · simp [passRateEstimate, h]
  · simp [passRateEstimate]
  · norm_num [passRateEstimate]

/-- Witness for C8 at `totalTests = 10`, `totalBugs = 3`. -/
theorem passRateEstimate_formula_witness :
    0 < 10
    ∧ passRateEstimate 3 10 = max 0 (100 - ((3 : ℚ) / (10 : ℚ)) * 100) :=
  ⟨by norm_num, (passRateEstimate_formula 3 10).1 (by norm_num)⟩

/-- C10: the defect list never depends on the numeric thresholds of the
classification config — two configs identical except for their
`thresholds` produce identical defects. -/
theorem detectBugs_ignores_thresholds (env : Nat → BugGen) (vd pd ad : Dates)
    (executions : List TestExecution) (testCases : List TestCase)
    (v p a : Bool) (t1 t2 : Thresholds) :
    detectBugs env vd pd ad executions testCases ⟨v, p, a, t1⟩
      = detectBugs env vd pd ad executions testCases ⟨v, p, a, t2⟩ := rfl

/-- C4: synthesis over an empty element list returns the empty list (no
error), and the framework type is a closed union — every framework value
is one of playwright, selenium, cypress, so the "unsupported framework"
situation is unrepresentable (the source performs no framework check and
has no error path). -/
theorem generateTestCases_empty_and_framework_closed (cfg : GenerateTestsConfig)
    (h : cfg.elements = []) :
    generateTestCases cfg = []
    ∧ ∀ fw : TestFramework, fw = .playwright ∨ fw = .selenium ∨ fw = .cypress := by
  constructor
  · simp [generateTestCases, h, baseTests]
  · intro fw
    cases fw
    · exact Or.inl rfl
    · exact Or.inr (Or.inl rfl)
    · exact Or.inr (Or.inr rfl)

/-- Witness for C4 at a concrete empty-element config. -/
theorem generateTestCases_empty_witness :
    (generateTestCases
        { elements := [], framework := .playwright, baseUrl := "https://example.com",
          includeValidation := true, includeNegativeTests := true } = [])
    ∧ ∀ fw : TestFramework, fw = .playwright ∨ fw = .selenium ∨ fw = .cypress :=
  generateTestCases_empty_and_framework_closed
    { elements := [], framework := .playwright, baseUrl := "https://example.com",
      includeValidation := true, includeNegativeTests := true } rfl


/-- C5 counterexample: with empty `baseUrl` and empty `apiToken` the
configuration is invalid (validation reports exactly the two errors), yet
`createJiraTicket` is not rejected and does not consult validation — it
proceeds and returns a successfully created ticket with status "Open" and
a fresh key, contradicting "rejected with a validation error, without
attempting the tracker call". -/
theorem createTicket_not_rejected_counterexample :
    validateJiraConfig (fun _ => false) badPartialJiraConfig
      = ["Base URL is required", "API Token is required"]
    ∧ (createJiraTicket ⟨1, 2, 3, 0, 0⟩ (fun n => toString n) sampleBug badJiraConfig).status
        = "Open"
    ∧ (createJiraTicket ⟨1, 2, 3, 0, 0⟩ (fun n => toString n) sampleBug badJiraConfig).key
        = "QA-2" := by
  refine ⟨by decide, rfl, rfl⟩

/-- C5 amended: `createJiraTicket` itself performs no configuration
validation and always produces a ticket (status "Open"); validation is
the separate `validateJiraConfig`, which checks all five fields
unconditionally and reports every violation together (each missing field
contributes its error message regardless of the others), so a
configuration with empty `baseUrl` and empty `apiToken` yields at least
two validation errors. -/
theorem validateJiraConfig_checks_all_five (urlOk : String → Bool)
    (config : PartialJiraConfig) :
    (jsFalsyStr config.baseUrl = true →
      "Base URL is required" ∈ validateJiraConfig urlOk config)
    ∧ (jsFalsyStr config.email = true →
      "Email is required" ∈ validateJiraConfig urlOk config)
    ∧ (jsFalsyStr config.apiToken = true →
      "API Token is required" ∈ validateJiraConfig urlOk config)
    ∧ (jsFalsyStr config.projectKey = true →
      "Project Key is required" ∈ validateJiraConfig urlOk config)
    ∧ (jsFalsyStr config.issueType = true →
      "Issue Type is required" ∈ validateJiraConfig urlOk config)
    ∧ 2 ≤ (validateJiraConfig (fun _ => false) badPartialJiraConfig).length
    ∧ ∀ (gen : TicketGen) (iso : Nat → String) (bug : Bug) (cfg : JiraConfig),
        (createJiraTicket gen iso bug cfg).status = "Open" := by
  refine ⟨fun h => ?_, fun h => ?_, fun h => ?_, fun h => ?_, fun h => ?_, by decide,
    fun gen iso bug cfg => rfl⟩
  all_goals simp [validateJiraConfig, h]

/-- Witness for C5's amended theorem: every hypothesis discharged at the
fully-undefined configuration (all five messages present), plus the
concrete two-error scenario and a concrete ticket creation. -/
theorem validateJiraConfig_checks_all_five_witness :
    "Base URL is required" ∈ validateJiraConfig (fun _ => false) emptyPartialJiraConfig
    ∧ "Email is required" ∈ validateJiraConfig (fun _ => false) emptyPartialJiraConfig
    ∧ "API Token is required" ∈ validateJiraConfig (fun _ => false) emptyPartialJiraConfig
    ∧ "Project Key is required" ∈ validateJiraConfig (fun _ => false) emptyPartialJiraConfig
    ∧ "Issue Type is required" ∈ validateJiraConfig (fun _ => false) emptyPartialJiraConfig
    ∧ 2 ≤ (validateJiraConfig (fun _ => false) badPartialJiraConfig).length
    ∧ (createJiraTicket ⟨7, 8, 9, 1, 2⟩ (fun n => toString n) sampleBug badJiraConfig).status
        = "Open" := by
  have h := validateJiraConfig_checks_all_five (fun _ => false) emptyPartialJiraConfig
  exact ⟨h.1 rfl, h.2.1 rfl, h.2.2.1 rfl, h.2.2.2.1 rfl, h.2.2.2.2.1 rfl,
    h.2.2.2.2.2.1,
    h.2.2.2.2.2.2 ⟨7, 8, 9, 1, 2⟩ (fun n => toString n) sampleBug badJiraConfig⟩

/-- `Forall₂` respects list append. -/
theorem forall₂_append_pieces {α : Type} {R : α → α → Prop} :
    ∀ {l₁ l₂ u₁ u₂ : List α}, List.Forall₂ R l₁ l₂ → List.Forall₂ R u₁ u₂ →
      List.Forall₂ R (l₁ ++ u₁) (l₂ ++ u₂)
  | _, _, _, _, .nil, h => by simpa using h
  | _, _, _, _, .cons hx hl, h => List.Forall₂.cons hx (forall₂_append_pieces hl h)

/-- Two maps over one list are pointwise related when the functions are. -/
theorem forall₂_map_same {α β : Type} {R : β → β → Prop} (f g : α → β) :
    ∀ (l : List α), (∀ x ∈ l, R (f x) (g x)) → List.Forall₂ R (l.map f) (l.map g)
  | [], _ => List.Forall₂.nil
  | x :: xs, h =>
      List.Forall₂.cons (h x (by simp))
        (forall₂_map_same f g xs (fun y hy => h y (by simp [hy])))

/-- A `Forall₂` of projection equalities gives equal projected lists. -/
theorem forall₂_map_eq {α β : Type} {f : α → β} :
    ∀ {l₁ l₂ : List α}, List.Forall₂ (fun a b => f a = f b) l₁ l₂ →
      l₁.map f = l₂.map f
  | _, _, .nil => rfl
  | _, _, .cons h hl => by simp [forall₂_map_eq hl, h]

/-- Two creations of a failure bug from the same execution/test case agree
on everything except the generated id and timestamps, for any oracle draws
and any configs. -/
theorem createBug_eqExceptGenerated (g g' : BugGen) (e : TestExecution)
    (tc : TestCase) (cfg cfg' : BugDetectionConfig) :
    EqExceptGenerated (createBugFromFailedTest g e tc cfg)
      (createBugFromFailedTest g' e tc cfg') :=
  ⟨rfl, rfl, rfl, rfl, rfl, rfl, rfl, rfl, rfl, rfl, rfl, rfl, rfl, rfl, rfl⟩

/-- The mock bug lists agree across runs on everything except dates. -/
theorem mockBugs_eqExceptGenerated (d d' : Dates) :
    List.Forall₂ EqExceptGenerated (generateMockVisualBugs d) (generateMockVisualBugs d')
    ∧ List.Forall₂ EqExceptGenerated (generateMockPerformanceBugs d) (generateMockPerformanceBugs d')
    ∧ List.Forall₂ EqExceptGenerated (generateMockAccessibilityBugs d) (generateMockAccessibilityBugs d') :=
  ⟨.cons ⟨rfl, rfl, rfl, rfl, rfl, rfl, rfl, rfl, rfl, rfl, rfl, rfl, rfl, rfl, rfl⟩ .nil,
   .cons ⟨rfl, rfl, rfl, rfl, rfl, rfl, rfl, rfl, rfl, rfl, rfl, rfl, rfl, rfl, rfl⟩ .nil,
   .cons ⟨rfl, rfl, rfl, rfl, rfl, rfl, rfl, rfl, rfl, rfl, rfl, rfl, rfl, rfl, rfl⟩ .nil⟩

/-- C3 amended: two classification runs over identical executions, test
cases and config — at different times / with different randomness — yield
defect lists of the same length, pointwise equal in every field except the
generated identifier and the `createdAt`/`updatedAt` timestamps; in
particular severity and category are a pure function of the inputs. -/
theorem detectBugs_pure_up_to_generated (env env' : Nat → BugGen)
    (vd vd' pd pd' ad ad' : Dates) (executions : List TestExecution)
    (testCases : List TestCase) (config : BugDetectionConfig) :
    List.Forall₂ EqExceptGenerated
      (detectBugs env vd pd ad executions testCases config)
      (detectBugs env' vd' pd' ad' executions testCases config) := by
  unfold detectBugs
  refine forall₂_append_pieces (forall₂_append_pieces (forall₂_append_pieces ?_ ?_) ?_) ?_
  · exact forall₂_map_same _ _ _ (fun x _ => createBug_eqExceptGenerated _ _ _ _ _ _)
  · cases config.enableVisualTesting
    · exact .nil
    · exact (mockBugs_eqExceptGenerated vd vd').1
  · cases config.enablePerformanceTesting
    · exact .nil
    · exact (mockBugs_eqExceptGenerated pd pd').2.1
  · cases config.enableAccessibilityTesting
    · exact .nil
    · exact (mockBugs_eqExceptGenerated ad ad').2.2

/-- C3 counterexample: the claim's relation — equality in ALL fields
except generated identifiers — fails for two classification runs over
identical inputs performed at different times: the single resulting
defect's `createdAt` timestamp (a non-identifier field, set from the
wall clock) is 0 in the first run and 5 in the second. -/
theorem classify_timestamps_differ_counterexample :
    ¬ List.Forall₂ EqExceptId
        (detectBugs env1 d0 d0 d0 [exec0] [tc0] cfg0)
        (detectBugs env2 d0 d0 d0 [exec0] [tc0] cfg0) := by
  intro h
  have hmap := @forall₂_map_eq Bug Nat Bug.createdAt _ _
    (h.imp (fun _ _ hab => hab.2.1))
  rw [show (detectBugs env1 d0 d0 d0 [exec0] [tc0] cfg0).map Bug.createdAt = [0] from rfl,
      show (detectBugs env2 d0 d0 d0 [exec0] [tc0] cfg0).map Bug.createdAt = [5] from rfl] at hmap
  simp at hmap

/-- String append concatenates the character lists. -/
theorem string_data_append (a b : String) : (a ++ b).data = a.data ++ b.data := by
  cases a; cases b; rfl

/-- Two strings whose first characters differ are distinct, whatever is
appended to the first. -/
theorem string_append_ne_of_head {c d : Char} (a s b : String) (la lb : List Char)
    (ha : a.data = c :: la) (hb : b.data = d :: lb) (hcd : c ≠ d) : a ++ s ≠ b := by
  intro heq
  apply hcd
  have hd : (a ++ s).data = b.data := by rw [heq]
  rw [string_data_append, ha, hb] at hd
  rw [List.cons_append] at hd
  injection hd with h1 _

/-- A per-element id prefix starting with anything but `'w'` can never
collide with the workflow test's id. -/
theorem prefixed_id_ne_workflow {c : Char} (pre s : String) (la : List Char)
    (ha : pre.data = c :: la) (hc : c ≠ 'w') : pre ++ s ≠ "workflow-test-1" :=
  string_append_ne_of_head pre s "workflow-test-1" la "orkflow-test-1".data ha rfl hc

/-- Every test a single element contributes covers exactly that element
and carries the requested framework. -/
theorem perElementTests_fields (fw : TestFramework) (url : String) (neg : Bool)
    (el : ScrapedElement) (i : Nat) (tc : TestCase)
    (h : tc ∈ perElementTests fw url neg el i) :
    tc.elements = [el.id] ∧ tc.framework = fw := by
  cases htype : el.type with
  | button =>
      simp [perElementTests, htype] at h
      subst h; exact ⟨rfl, rfl⟩
  | input =>
      cases neg
      · simp [perElementTests, htype] at h
        subst h; exact ⟨rfl, rfl⟩
      · simp [perElementTests, htype] at h
        rcases h with h | h <;> (subst h; exact ⟨rfl, rfl⟩)
  | link =>
      simp [perElementTests, htype] at h
      subst h; exact ⟨rfl, rfl⟩
  | form =>
      simp [perElementTests, htype] at h
      subst h; exact ⟨rfl, rfl⟩
  | select => simp [perElementTests, htype] at h
  | textarea => simp [perElementTests, htype] at h

/-- No per-element test carries the workflow test's id. -/
theorem perElementTests_id_ne_workflow (fw : TestFramework) (url : String) (neg : Bool)
    (el : ScrapedElement) (i : Nat) (tc : TestCase)
    (h : tc ∈ perElementTests fw url neg el i) :
    tc.id ≠ "workflow-test-1" := by
  cases htype : el.type with
  | button =>
      simp [perElementTests, htype] at h
      subst h
      exact prefixed_id_ne_workflow "btn-test-" (toString i) _ rfl (by decide)
  | input =>
      cases neg
      · simp [perElementTests, htype] at h
        subst h
        exact prefixed_id_ne_workflow "input-test-" (toString i) _ rfl (by decide)
      · simp [perElementTests, htype] at h
        rcases h with h | h <;> subst h
        · exact prefixed_id_ne_workflow "input-test-" (toString i) _ rfl (by decide)
        · exact prefixed_id_ne_workflow "negative-input-test-" (toString i) _ rfl (by decide)
  | link =>
      simp [perElementTests, htype] at h
      subst h
      exact prefixed_id_ne_workflow "link-test-" (toString i) _ rfl (by decide)
  | form =>
      simp [perElementTests, htype] at h
      subst h
      exact prefixed_id_ne_workflow "form-test-" (toString i) _ rfl (by decide)
  | select => simp [perElementTests, htype] at h
  | textarea => simp [perElementTests, htype] at h

/-- Membership facts across the whole per-element loop: each produced test
covers exactly one of the listed elements, carries the requested
framework, and is not the workflow test. -/
theorem baseTests_mem (fw : TestFramework) (url : String) (neg : Bool) :
    ∀ (els : List ScrapedElement) (i : Nat) (tc : TestCase),
      tc ∈ baseTests fw url neg els i →
      (∃ el ∈ els, tc.elements = [el.id]) ∧ tc.framework = fw
        ∧ tc.id ≠ "workflow-test-1"
  | [], _, tc, h => by simp [baseTests] at h
  | el :: rest, i, tc, h => by
      simp only [baseTests] at h
      rcases List.mem_append.mp h with h | h
      · obtain ⟨he, hf⟩ := perElementTests_fields fw url neg el i tc h
        exact ⟨⟨el, by simp, he⟩, hf, perElementTests_id_ne_workflow fw url neg el i tc h⟩
      · obtain ⟨⟨el', hm, he⟩, hf, hid⟩ := baseTests_mem fw url neg rest (i + 1) tc h
        exact ⟨⟨el', by simp [hm], he⟩, hf, hid⟩

/-- `generateTestCases`, positive-form branch. -/
theorem generateTestCases_eq_pos (cfg : GenerateTestsConfig)
    (h : (cfg.elements.filter (fun el => el.type == ElementType.form)).length > 0) :
    generateTestCases cfg
      = baseTests cfg.framework cfg.baseUrl cfg.includeNegativeTests cfg.elements 0
        ++ [generateWorkflowTest cfg.elements cfg.framework cfg.baseUrl] := by
  show (if (cfg.elements.filter (fun el => el.type == ElementType.form)).length > 0
        then baseTests cfg.framework cfg.baseUrl cfg.includeNegativeTests cfg.elements 0
              ++ [generateWorkflowTest cfg.elements cfg.framework cfg.baseUrl]
        else baseTests cfg.framework cfg.baseUrl cfg.includeNegativeTests cfg.elements 0) = _
  rw [if_pos h]

/-- `generateTestCases`, no-form branch. -/
theorem generateTestCases_eq_neg (cfg : GenerateTestsConfig)
    (h : ¬ (cfg.elements.filter (fun el => el.type == ElementType.form)).length > 0) :
    generateTestCases cfg
      = baseTests cfg.framework cfg.baseUrl cfg.includeNegativeTests cfg.elements 0 := by
  show (if (cfg.elements.filter (fun el => el.type == ElementType.form)).length > 0
        then baseTests cfg.framework cfg.baseUrl cfg.includeNegativeTests cfg.elements 0
              ++ [generateWorkflowTest cfg.elements cfg.framework cfg.baseUrl]
        else baseTests cfg.framework cfg.baseUrl cfg.includeNegativeTests cfg.elements 0) = _
  rw [if_neg h]

/-- A `form` element is present iff the source's `formElements` filter is
nonempty. -/
theorem form_present_iff (cfg : GenerateTestsConfig) :
    (∃ el ∈ cfg.elements, el.type = ElementType.form)
      ↔ 0 < (cfg.elements.filter (fun el => el.type == ElementType.form)).length := by
  rw [List.length_pos]
  constructor
  · rintro ⟨el, hm, ht⟩ hnil
    have := List.filter_eq_nil_iff.mp hnil el hm
    simp [ht] at this
  · intro hne
    obtain ⟨x, hx⟩ := List.exists_mem_of_ne_nil _ hne
    obtain ⟨hm, hp⟩ := List.mem_filter.mp hx
    exact ⟨x, hm, by simpa using hp⟩

/-- C6: every specification synthesis returns has a non-empty
`coveredElementIds` list, each listed id is the id of some input element,
and the specification's framework is the config's framework. -/
theorem synthesized_specs_invariant (cfg : GenerateTestsConfig) (tc : TestCase)
    (h : tc ∈ generateTestCases cfg) :
    tc.elements ≠ []
    ∧ (∀ eid ∈ tc.elements, ∃ el ∈ cfg.elements, el.id = eid)
    ∧ tc.framework = cfg.framework := by
  by_cases hform : (cfg.elements.filter (fun el => el.type == ElementType.form)).length > 0
  · rw [generateTestCases_eq_pos cfg hform] at h
    rcases List.mem_append.mp h with h | h
    · obtain ⟨⟨el, hm, he⟩, hf, _⟩ := baseTests_mem _ _ _ _ _ _ h
      refine ⟨by simp [he], ?_, hf⟩
      intro eid hid
      rw [he] at hid
      simp at hid
      exact ⟨el, hm, hid.symm⟩
    · simp at h
      subst h
      have hne : cfg.elements ≠ [] := by
        intro hnil
        rw [hnil] at hform
        simp at hform
      refine ⟨?_, ?_, rfl⟩
      · show cfg.elements.map (fun el => el.id) ≠ []
        simpa using hne
      · intro eid hid
        obtain ⟨el, hm, hel⟩ := List.mem_map.mp hid
        exact ⟨el, hm, hel⟩
  · rw [generateTestCases_eq_neg cfg hform] at h
    obtain ⟨⟨el, hm, he⟩, hf, _⟩ := baseTests_mem _ _ _ _ _ _ h
    refine ⟨by simp [he], ?_, hf⟩
    intro eid hid
    rw [he] at hid
    simp at hid
    exact ⟨el, hm, hid.symm⟩

/-- Witness for C6: the form-submission specification produced for
`cfgFormOnly` is in the output and satisfies the invariant. -/
theorem synthesized_specs_invariant_witness :
    generateFormTest elForm TestFramework.playwright "https://example.com" 0
        ∈ generateTestCases cfgFormOnly
    ∧ ((generateFormTest elForm TestFramework.playwright "https://example.com" 0).elements ≠ []
       ∧ (∀ eid ∈ (generateFormTest elForm TestFramework.playwright "https://example.com" 0).elements,
            ∃ el ∈ cfgFormOnly.elements, el.id = eid)
       ∧ (generateFormTest elForm TestFramework.playwright "https://example.com" 0).framework
           = cfgFormOnly.framework) := by
  have hmem : generateFormTest elForm TestFramework.playwright "https://example.com" 0
      ∈ generateTestCases cfgFormOnly := by
    rw [show generateTestCases cfgFormOnly
        = [generateFormTest elForm TestFramework.playwright "https://example.com" 0,
           generateWorkflowTest [elForm] TestFramework.playwright "https://example.com"] from rfl]
    exact List.mem_cons_self _ _
  exact ⟨hmem, synthesized_specs_invariant cfgFormOnly _ hmem⟩

/-- C2: when a `form` element is present, synthesis emits exactly the
per-element specifications plus one extra workflow specification — an
integration, high-priority test whose covered ids are ALL input element
ids — and no per-element specification is the workflow one (its id is
unique to it); with no `form` element, only the per-element
specifications are emitted. -/
theorem workflow_spec_emission (cfg : GenerateTestsConfig) :
    ((∃ el ∈ cfg.elements, el.type = ElementType.form) →
      generateTestCases cfg
        = baseTests cfg.framework cfg.baseUrl cfg.includeNegativeTests cfg.elements 0
          ++ [generateWorkflowTest cfg.elements cfg.framework cfg.baseUrl])
    ∧ ((¬ ∃ el ∈ cfg.elements, el.type = ElementType.form) →
      generateTestCases cfg
        = baseTests cfg.framework cfg.baseUrl cfg.includeNegativeTests cfg.elements 0)
    ∧ (generateWorkflowTest cfg.elements cfg.framework cfg.baseUrl).id = "workflow-test-1"
    ∧ (generateWorkflowTest cfg.elements cfg.framework cfg.baseUrl).category = .integration
    ∧ (generateWorkflowTest cfg.elements cfg.framework cfg.baseUrl).priority = .high
    ∧ (generateWorkflowTest cfg.elements cfg.framework cfg.baseUrl).elements
        = cfg.elements.map (fun el => el.id)
    ∧ ∀ tc ∈ baseTests cfg.framework cfg.baseUrl cfg.includeNegativeTests cfg.elements 0,
        tc.id ≠ "workflow-test-1" := by
  refine ⟨?_, ?_, rfl, rfl, rfl, rfl, ?_⟩
  · intro hex
    exact generateTestCases_eq_pos cfg ((form_present_iff cfg).mp hex)
  · intro hnex
    exact generateTestCases_eq_neg cfg (fun hpos => hnex ((form_present_iff cfg).mpr hpos))
  · intro tc htc
    exact (baseTests_mem _ _ _ _ _ _ htc).2.2

/-- Witness for C2: both branches at concrete configs — with the form
element the workflow test is appended; with only a link element it is
not. -/
theorem workflow_spec_emission_witness :
    generateTestCases cfgFormOnly
      = baseTests cfgFormOnly.framework cfgFormOnly.baseUrl cfgFormOnly.includeNegativeTests
          cfgFormOnly.elements 0
        ++ [generateWorkflowTest cfgFormOnly.elements cfgFormOnly.framework cfgFormOnly.baseUrl]
    ∧ generateTestCases cfgLinkOnly
      = baseTests cfgLinkOnly.framework cfgLinkOnly.baseUrl cfgLinkOnly.includeNegativeTests
          cfgLinkOnly.elements 0 := by
  constructor
  · exact (workflow_spec_emission cfgFormOnly).1 ⟨elForm, by simp [cfgFormOnly], rfl⟩
  · refine (workflow_spec_emission cfgLinkOnly).2.1 ?_
    rintro ⟨el, hm, ht⟩
    simp [cfgLinkOnly] at hm
    rw [hm] at ht
    exact absurd ht (by decide)

/-- A list starts with itself, whatever follows. -/
theorem startsWithL_append (p r : List Char) : startsWithL (p ++ r) p = true := by
  induction p with
  | nil => cases r <;> rfl
  | cons c cs ih => simp [startsWithL, ih]

/-- A pattern occurs in any list that contains it contiguously. -/
theorem containsSubL_append (p x y : List Char) :
    containsSubL p (x ++ (p ++ y)) = true := by
  induction x with
  | nil =>
      cases p with
      | nil => cases y <;> simp [containsSubL, startsWithL]
      | cons c cs =>
          show containsSubL (c :: cs) (c :: (cs ++ y)) = true
          simp [containsSubL, startsWithL, startsWithL_append]
  | cons a t ih =>
      show containsSubL p (a :: (t ++ (p ++ y))) = true
      simp [containsSubL, ih]

/-- `strIncludes` finds a middle factor of a concatenation. -/
theorem strIncludes_append_self (x p y : String) : strIncludes (x ++ p ++ y) p = true := by
  show containsSubL p.data (x ++ p ++ y).data = true
  rw [string_data_append, string_data_append, List.append_assoc]
  exact containsSubL_append p.data x.data y.data

/-- C9 amended: every `link` element yields exactly one functional,
low-priority navigation specification whose body contains the framework's
URL assertion on the source's expected URL — the href prefixed with
`baseUrl` when it starts with `/`, the verbatim href otherwise. -/
theorem link_spec_navigation (el : ScrapedElement) (fw : TestFramework)
    (baseUrl : String) (i : Nat) (neg : Bool) (h : el.type = ElementType.link) :
    perElementTests fw baseUrl neg el i = [generateLinkTest el fw baseUrl i]
    ∧ (generateLinkTest el fw baseUrl i).category = .functional
    ∧ (generateLinkTest el fw baseUrl i).priority = .low
    ∧ strIncludes (generateLinkTest el fw baseUrl i).code
        (linkAssertion fw (linkExpectedUrl (jsOr (attrGet el "href") "#") baseUrl)) = true
    ∧ (∀ href base2 : String, startsWithL href.data ['/'] = true →
        linkExpectedUrl href base2 = base2 ++ href)
    ∧ (∀ href base2 : String, startsWithL href.data ['/'] = false →
        linkExpectedUrl href base2 = href) := by
  refine ⟨by simp [perElementTests, h], rfl, rfl, ?_, ?_, ?_⟩
  · cases fw with
    | playwright =>
        show strIncludes (playwrightLinkCode el (jsOr (attrGet el "href") "#") baseUrl)
          (linkAssertion .playwright
            (linkExpectedUrl (jsOr (attrGet el "href") "#") baseUrl)) = true
        rw [playwrightLinkCode]
        exact strIncludes_append_self _ _ _
    | selenium =>
        show strIncludes (seleniumLinkCode el (jsOr (attrGet el "href") "#") baseUrl)
          (linkAssertion .selenium
            (linkExpectedUrl (jsOr (attrGet el "href") "#") baseUrl)) = true
        rw [seleniumLinkCode]
        exact strIncludes_append_self _ _ _
    | cypress =>
        show strIncludes (cypressLinkCode el (jsOr (attrGet el "href") "#") baseUrl)
          (linkAssertion .cypress
            (linkExpectedUrl (jsOr (attrGet el "href") "#") baseUrl)) = true
        rw [cypressLinkCode]
        exact strIncludes_append_self _ _ _
  · intro href base2 hsw
    simp [linkExpectedUrl, hsw]
  · intro href base2 hsw
    simp [linkExpectedUrl, hsw]

/-- Witness for C9's amended theorem at the sample link element, with both
shapes of href discharged concretely. -/
theorem link_spec_navigation_witness :
    elLink.type = ElementType.link
    ∧ perElementTests TestFramework.playwright "https://example.com" true elLink 0
        = [generateLinkTest elLink TestFramework.playwright "https://example.com" 0]
    ∧ strIncludes (generateLinkTest elLink TestFramework.playwright "https://example.com" 0).code
        (linkAssertion TestFramework.playwright
          (linkExpectedUrl (jsOr (attrGet elLink "href") "#") "https://example.com")) = true
    ∧ linkExpectedUrl "/about" "https://example.com" = "https://example.com" ++ "/about"
    ∧ linkExpectedUrl "page.html" "https://example.com" = "page.html" := by
  have h := link_spec_navigation elLink TestFramework.playwright "https://example.com" 0 true rfl
  exact ⟨rfl, h.1, h.2.2.2.1, h.2.2.2.2.1 "/about" "https://example.com" rfl,
    h.2.2.2.2.2 "page.html" "https://example.com" rfl⟩

/-- C9 counterexample: `elLink`'s href `page.html` is relative (it names a
path, not an absolute URL), yet the generated body asserts the VERBATIM
`page.html` and the `baseUrl`-resolved URL `https://example.com/page.html`
appears nowhere in it — relative hrefs are only resolved when they start
with `/`. -/
theorem link_relative_href_not_resolved_counterexample :
    jsOr (attrGet elLink "href") "#" = "page.html"
    ∧ strIncludes
        (generateLinkTest elLink TestFramework.playwright "https://example.com" 0).code
        "toHaveURL(\x27page.html\x27)" = true
    ∧ strIncludes
        (generateLinkTest elLink TestFramework.playwright "https://example.com" 0).code
        "https://example.com/page.html" = false := by
  refine ⟨rfl, by decide, by decide⟩
